import Mathlib

/-!
Verification of the Codeastra code-execution bot (`src/main.py`).

The development shallow-embeds the core pipeline of `main.py`:

* `CodeAnalyzer.analyze` (lines 80-107): static safety screening over a
  Python syntax tree (`ast.parse` / `ast.walk` are external standard-library
  functions; the tree and the parse outcome are inputs of the embedding).
* `run_code` (lines 192-366): the `!run` command — blocked-user gate
  (the `is_blocked` decorator), the analyzer gate with the trusted-set
  bypass, execution of the submitted body, the ledger and history updates
  in the success and exception branches.  The runtime behaviour of the
  submitted code is an input (`Behavior`): it terminates with an output,
  raises `asyncio.TimeoutError`, raises some other exception, or diverges.
  The source awaits the compiled coroutine directly, with no
  `asyncio.wait_for`; a diverging behaviour therefore yields no result at
  all, modelled as `none`.
* `get_user_stats`, `show_stats`, `show_history`, and the four
  administrative commands `trust_user` / `untrust_user` / `block_user` /
  `unblock_user` (persistence of the config file is outside the embedded
  state; only the in-process sets are modelled).

Durations are modelled as rationals, timestamps as naturals, Python sets
as `Finset ℕ`, and the insertion-ordered `user_stats` dict as an
association list.
-/

namespace Codeastra

/-! ### Strings: substring containment (Python's `sub in s`) -/

/-- `leadsList sub s` : `sub` is an initial segment of `s` (char lists). -/
def leadsList : List Char → List Char → Bool
  | [], _ => true
  | _ :: _, [] => false
  | a :: as, b :: bs => a == b && leadsList as bs

/-- `subList sub s` : `sub` occurs contiguously inside `s` (char lists). -/
def subList : List Char → List Char → Bool
  | sub, [] => leadsList sub []
  | sub, b :: bs => leadsList sub (b :: bs) || subList sub bs

/-- Python's `sub in s` on strings: contiguous-substring containment. -/
def containsSub (s sub : String) : Bool :=
  subList sub.data s.data

/-! ### Python syntax trees, abstracted

Only what `CodeAnalyzer.analyze` inspects is kept: each node is either a
call expression — whose target (`node.func`) is an attribute access
(carrying the `ast.unparse` rendering of the target), a bare name, or
something else — or a non-call node.  Each node carries its child nodes,
so calls may be nested arbitrarily. -/

inductive FuncKind where
  /-- `ast.Attribute` target; `rendered` is `ast.unparse node.func`. -/
  | attr (rendered : String)
  /-- `ast.Name` target; `id` is `node.func.id`. -/
  | name (id : String)
  /-- any other target expression (subscript, lambda, call, ...). -/
  | other

mutual
inductive PyNode where
  | call (func : FuncKind) (children : PyForest)
  | node (children : PyForest)
inductive PyForest where
  | nil
  | cons (head : PyNode) (tail : PyForest)
end

mutual
/-- Number of nodes in a tree (at least 1). -/
def PyNode.sz : PyNode → Nat
  | .call _ cs => 1 + cs.sz
  | .node cs => 1 + cs.sz
/-- Number of nodes in a forest. -/
def PyForest.sz : PyForest → Nat
  | .nil => 0
  | .cons h t => h.sz + t.sz
end

def PyForest.toList : PyForest → List PyNode
  | .nil => []
  | .cons h t => h :: t.toList

/-- `ast.iter_child_nodes`: the children of a node, as a list. -/
def PyNode.kids : PyNode → List PyNode
  | .call _ cs => cs.toList
  | .node cs => cs.toList

/-- Total node count of a BFS work queue. -/
def qsz (l : List PyNode) : Nat := (l.map PyNode.sz).sum

theorem sz_pos (n : PyNode) : 1 ≤ n.sz := by
  cases n <;> simp [PyNode.sz]

theorem qsz_toList : ∀ (cs : PyForest), qsz cs.toList = cs.sz
  | .nil => rfl
  | .cons h t => by
      have ih := qsz_toList t
      simp only [qsz, PyForest.toList, PyForest.sz, List.map_cons, List.sum_cons] at ih ⊢
      omega

theorem qsz_kids (n : PyNode) : qsz n.kids + 1 = n.sz := by
  cases n <;> simp [PyNode.kids, PyNode.sz, qsz_toList] <;> omega

theorem qsz_append (a b : List PyNode) : qsz (a ++ b) = qsz a + qsz b := by
  simp [qsz]

theorem qsz_cons (n : PyNode) (rest : List PyNode) :
    qsz (n :: rest) = n.sz + qsz rest := by
  simp [qsz]

/-- Work loop of `ast.walk`, recursing on an explicit bound so that the
definition computes; `walk` below instantiates the bound with the node
count of the queue, which decreases by exactly one per dequeued node
(`qsz_kids`), so the truncating `0, _ :: _` arm is never taken
(`walk_cons` proves the intended recurrence). -/
def walkFuel : Nat → List PyNode → List PyNode
  | _, [] => []
  | 0, _ :: _ => []
  | fuel + 1, n :: rest => n :: walkFuel fuel (rest ++ n.kids)

/-- `ast.walk`: breadth-first traversal via a FIFO work queue — each
dequeued node is yielded and its children are enqueued at the back.
`walk_nil` / `walk_cons` establish the defining recurrence. -/
def walk (l : List PyNode) : List PyNode := walkFuel (qsz l) l

theorem walk_nil : walk [] = [] := rfl

theorem walk_cons (n : PyNode) (rest : List PyNode) :
    walk (n :: rest) = n :: walk (rest ++ n.kids) := by
  have h1 := sz_pos n
  have h2 := qsz_kids n
  have h3 : qsz (n :: rest) = (qsz (rest ++ n.kids)) + 1 := by
    rw [qsz_cons, qsz_append]; omega
  unfold walk
  rw [h3]
  simp only [walkFuel]

/-! ### `CodeAnalyzer` (main.py lines 80-107)

`DANGEROUS_KEYWORDS` is a Python `set` literal; it is embedded as the list
of its elements in the order they are written in the source (the inner
`for dangerous in DANGEROUS_KEYWORDS` loop iterates the set in an
unspecified order; the claims do not depend on which of several matching
keywords is reported, only that the reported name is deny-listed). -/

def DANGEROUS_KEYWORDS : List String :=
  ["os.system", "subprocess", "eval", "__import__",
   "open", "exec", "compile", "globals", "locals"]

/-- Per-node body of the `for node in ast.walk(tree)` loop: `some msg-name`
when the loop would `return False` at this node, `none` when it moves on.

* `isinstance(node.func, ast.Attribute)`: scan the keyword set for one
  contained in `ast.unparse(node.func)`; report the keyword.
* `isinstance(node.func, ast.Name)`: membership test of `node.func.id` in
  the keyword set; report the identifier. -/
def checkNode : PyNode → Option String
  | .call (.attr rendered) _ =>
      DANGEROUS_KEYWORDS.find? (fun dangerous => containsSub rendered dangerous)
  | .call (.name id) _ =>
      if DANGEROUS_KEYWORDS.contains id then some id else none
  | _ => none

def dangerMsg (name : String) : String :=
  "⚠️ Dangerous operation detected: `" ++ name ++ "`"

/-- The walk loop of `CodeAnalyzer.analyze`: first node at which
`checkNode` fires short-circuits with `(False, message)`; falling off the
end returns `(True, "✅ Code analysis passed")`. -/
def analyzeWalk : List PyNode → Bool × String
  | [] => (true, "✅ Code analysis passed")
  | n :: rest =>
      match checkNode n with
      | some name => (false, dangerMsg name)
      | none => analyzeWalk rest

/-- `CodeAnalyzer.analyze`.  `ast.parse` is external; its outcome — a tree,
or a `SyntaxError` with message `e` — is the argument. -/
def analyze : Except String PyNode → Bool × String
  | .error e => (false, "❌ Syntax Error: " ++ e)
  | .ok tree => analyzeWalk (walk [tree])

/-! Spec-side formulation of the matching rule (§4.2 of the spec), for the
refinement theorem of claim C5: a qualified/attribute call target matches
when its rendered text contains a deny-listed substring; a bare-identifier
target matches exactly when the identifier is a deny-listed name. -/

def SpecMatch : PyNode → Prop
  | .call (.attr rendered) _ =>
      ∃ d ∈ DANGEROUS_KEYWORDS, containsSub rendered d = true
  | .call (.name id) _ => id ∈ DANGEROUS_KEYWORDS
  | _ => False

/-- Spec-side name reported for a matching call. -/
def specName : PyNode → Option String
  | .call (.attr rendered) _ =>
      DANGEROUS_KEYWORDS.find? (fun d => containsSub rendered d)
  | .call (.name id) _ => if id ∈ DANGEROUS_KEYWORDS then some id else none
  | _ => none

theorem checkNode_eq_specName (n : PyNode) : checkNode n = specName n := by
  cases n with
  | node cs => rfl
  | call f cs =>
      cases f with
      | attr rendered => rfl
      | other => rfl
      | name id =>
          simp only [checkNode, specName]
          by_cases h : id ∈ DANGEROUS_KEYWORDS
          · rw [if_pos (List.elem_iff.mpr h), if_pos h]
          · rw [if_neg (fun hc => h (List.elem_iff.mp hc)), if_neg h]

theorem checkNode_none_iff (n : PyNode) : checkNode n = none ↔ ¬ SpecMatch n := by
  cases n with
  | node cs => simp [checkNode, SpecMatch]
  | call f cs =>
      cases f with
      | attr rendered =>
          simp [checkNode, SpecMatch, List.find?_eq_none]
      | name id =>
          simp only [checkNode, SpecMatch]
          by_cases h : id ∈ DANGEROUS_KEYWORDS
          · rw [if_pos (List.elem_iff.mpr h)]
            simp [h]
          · rw [if_neg (fun hc => h (List.elem_iff.mp hc))]
            simp [h]
      | other => simp [checkNode, SpecMatch]

theorem analyzeWalk_safe_iff (ns : List PyNode) :
    (analyzeWalk ns).1 = true ↔ ∀ n ∈ ns, ¬ SpecMatch n := by
  induction ns with
  | nil => simp [analyzeWalk]
  | cons n rest ih =>
      by_cases h : checkNode n = none
      · have hm := (checkNode_none_iff n).mp h
        simp [analyzeWalk, h, ih, hm]
      · obtain ⟨name, hn⟩ := Option.ne_none_iff_exists'.mp h
        have hm : SpecMatch n := by
          by_contra hc
          exact h ((checkNode_none_iff n).mpr hc)
        simp [analyzeWalk, hn, hm]

theorem analyzeWalk_first_match (ns : List PyNode) (d : String)
    (h : ns.findSome? specName = some d) :
    analyzeWalk ns = (false, dangerMsg d) := by
  induction ns with
  | nil => simp [List.findSome?] at h
  | cons n rest ih =>
      rw [List.findSome?_cons] at h
      rw [← checkNode_eq_specName n] at h
      cases hc : checkNode n with
      | some name =>
          rw [hc] at h
          simp only [Option.some.injEq] at h
          subst h
          simp [analyzeWalk, hc]
      | none =>
          rw [hc] at h
          simp [analyzeWalk, hc, ih h]

/-! ### Ledger and state (main.py lines 35-61, 180-189)

`user_stats` is a Python dict keyed by user id; dicts preserve insertion
order, so it is embedded as an association list with at most one entry per
key.  `TRUSTED_USERS` / `BLOCKED_USERS` are Python sets.  `first_use`
stores `datetime.now().isoformat()`; timestamps are abstracted to `ℕ` and
supplied as a `now` argument. -/

def MAX_HISTORY : Nat := 100

def EXECUTION_TIMEOUT : Nat := 30

structure UserStats where
  executions : Nat
  errors : Nat
  total_time : ℚ
  first_use : Nat
deriving DecidableEq

inductive HStatus where
  | success
  | error
deriving DecidableEq

/-- One element of `execution_history`: `payload` is the `'output'` field
for a success entry, the `'error'` field (rendered exception) for an error
entry. -/
structure HistoryEntry where
  user : Nat
  code : String
  payload : String
  status : HStatus
deriving DecidableEq

structure BotState where
  execution_history : List HistoryEntry
  user_stats : List (Nat × UserStats)
  trusted : Finset ℕ
  blocked : Finset ℕ
deriving DecidableEq

def lookupStats (m : List (Nat × UserStats)) (uid : Nat) : Option UserStats :=
  (m.find? (fun p => p.1 == uid)).map (·.2)

/-- `get_user_stats` (lines 180-189): return the existing record, or
insert and return a zero-initialised one (`first_use = now`).  The Python
function returns an alias into the dict; the embedding returns the record
together with the updated dict. -/
def get_user_stats (m : List (Nat × UserStats)) (uid : Nat) (now : Nat) :
    UserStats × List (Nat × UserStats) :=
  match m.find? (fun p => p.1 == uid) with
  | some p => (p.2, m)
  | none => (⟨0, 0, 0, now⟩, m ++ [(uid, ⟨0, 0, 0, now⟩)])

/-- Write back a mutated record through the alias returned by
`get_user_stats` (each key occurs at most once in the dict). -/
def setStats (m : List (Nat × UserStats)) (uid : Nat) (s : UserStats) :
    List (Nat × UserStats) :=
  m.map (fun p => if p.1 = uid then (uid, s) else p)

/-- Success branch of `run_code` (lines 250-253):
`stats['executions'] += 1; stats['total_time'] += execution_time`. -/
def recordSuccess (m : List (Nat × UserStats)) (uid : Nat) (t : ℚ) (now : Nat) :
    List (Nat × UserStats) :=
  let g := get_user_stats m uid now
  setStats g.2 uid
    { g.1 with executions := g.1.executions + 1, total_time := g.1.total_time + t }

/-- Exception branch of `run_code` (lines 322-324): only
`stats['errors'] += 1` — the branch touches neither `executions` nor
`total_time`. -/
def recordError (m : List (Nat × UserStats)) (uid : Nat) (now : Nat) :
    List (Nat × UserStats) :=
  let g := get_user_stats m uid now
  setStats g.2 uid { g.1 with errors := g.1.errors + 1 }

/-! ### The `!run` pipeline (main.py lines 192-366) -/

/-- Runtime behaviour of the wrapped submitted body `await func()` —
an input of the embedding, since the submitted code is arbitrary.
`raisesTimeout` is a body that itself raises `asyncio.TimeoutError`
(the only way the `except asyncio.TimeoutError` clause can fire, as the
source installs no deadline). -/
inductive Behavior where
  | terminates (elapsed : ℚ) (output : String)
  | raisesTimeout (elapsed : ℚ)
  | raises (elapsed : ℚ) (err : String)
  | diverges

structure Submission where
  /-- code text after `clean_code`. -/
  code : String
  /-- outcome of `ast.parse` on the cleaned code (external parser). -/
  parsed : Except String PyNode
  behavior : Behavior

inductive RunResult where
  /-- the `is_blocked` decorator raised `CheckFailure`; body never ran. -/
  | denied
  /-- analyzer gate: `not is_safe and author not in TRUSTED_USERS`. -/
  | rejected (msg : String)
  | success (output : String) (elapsed : ℚ)
  | runtimeError (err : String) (elapsed : ℚ)
  /-- the `except asyncio.TimeoutError` branch. -/
  | timedOut
deriving DecidableEq

/-- `run_code` (lines 192-366).  Returns the updated global state and the
outcome delivered to the caller; `none` means no outcome is ever
delivered — the body is awaited directly (line 245) with no
`asyncio.wait_for`, so a diverging body blocks the command forever. -/
def run_code (st : BotState) (uid : Nat) (sub : Submission) (now : Nat) :
    BotState × Option RunResult :=
  if uid ∈ st.blocked then (st, some .denied)
  else
    let a := analyze sub.parsed
    if a.1 = false ∧ uid ∉ st.trusted then (st, some (.rejected a.2))
    else
      match sub.behavior with
      | .terminates t out =>
          let stats1 := recordSuccess st.user_stats uid t now
          let hist1 := st.execution_history ++ [⟨uid, sub.code, out, .success⟩]
          let hist2 := if hist1.length > MAX_HISTORY then hist1.tail else hist1
          ({ st with user_stats := stats1, execution_history := hist2 },
           some (.success out t))
      | .raisesTimeout _ => (st, some .timedOut)
      | .raises t err =>
          let stats1 := recordError st.user_stats uid now
          let hist1 := st.execution_history ++ [⟨uid, sub.code, err, .error⟩]
          ({ st with user_stats := stats1, execution_history := hist1 },
           some (.runtimeError err t))
      | .diverges => (st, none)

/-- The `is_trusted` decorator's predicate (lines 64-70):
`ctx.author.id in TRUSTED_USERS or ctx.author.id == bot.owner_id`.
(Note: the `run_code` body itself consults only `TRUSTED_USERS`.) -/
def is_trusted_pred (trusted : Finset ℕ) (ownerId uid : Nat) : Bool :=
  decide (uid ∈ trusted) || (uid == ownerId)

/-- Did the submission reach the execution engine?  Everything except a
block denial or an analyzer rejection means the body was invoked
(`none` = invoked and never returned). -/
def reachedEngine : Option RunResult → Bool
  | some .denied => false
  | some (.rejected _) => false
  | _ => true

/-! ### Administrative commands (main.py lines 369-427)

Each command is gated by `commands.is_owner()`; a non-owner caller fails
the check and mutates nothing.  `save_config` (file persistence) is
outside the embedded state. -/

def trust_user (st : BotState) (ownerId caller target : Nat) : BotState :=
  if caller = ownerId then { st with trusted := insert target st.trusted } else st

def untrust_user (st : BotState) (ownerId caller target : Nat) : BotState :=
  if caller = ownerId then { st with trusted := st.trusted.erase target } else st

def block_user (st : BotState) (ownerId caller target : Nat) : BotState :=
  if caller = ownerId then { st with blocked := insert target st.blocked } else st

def unblock_user (st : BotState) (ownerId caller target : Nat) : BotState :=
  if caller = ownerId then { st with blocked := st.blocked.erase target } else st

/-! ### Statistics commands (main.py lines 430-540) -/

/-- `show_stats` (lines 430-479): renders the record returned by
`get_user_stats(target_user.id)` — which inserts a fresh zeroed record
when the target has none. -/
def show_stats (st : BotState) (target : Nat) (now : Nat) : BotState × UserStats :=
  let g := get_user_stats st.user_stats target now
  ({ st with user_stats := g.2 }, g.1)

/-- Python's `l[s:]` slice: a negative start is taken from the end
(clamped at 0), a non-negative start drops that many elements. -/
def pySliceFrom {α : Type} (l : List α) (s : Int) : List α :=
  if s < 0 then l.drop ((l.length + s).toNat) else l.drop s.toNat

/-- `show_history` (lines 510-514): `limit = min(limit, 10)`, then
`execution_history[-limit:][::-1]`. -/
def show_history (st : BotState) (limit : Int) : List HistoryEntry :=
  let l := min limit 10
  (pySliceFrom st.execution_history (-l)).reverse

/-! ### Concrete example inputs used by witnesses and counterexamples -/

def emptyState : BotState := ⟨[], [], ∅, ∅⟩

/-- Tree of `print(1)`: one bare-identifier call, not deny-listed. -/
def printTree : PyNode := .node (.cons (.call (.name "print") .nil) .nil)

/-- Submission that succeeds after 0.1 time-units printing `1`. -/
def okSub : Submission := ⟨"print(1)", .ok printTree, .terminates (1/10) "1\n"⟩

/-- Submission that raises after 0.2 time-units. -/
def boomSub : Submission :=
  ⟨"1/0", .ok (.node .nil), .raises (1/5) "ZeroDivisionError: division by zero"⟩

/-- Submission whose body never completes. -/
def loopSub : Submission := ⟨"while True:\n    pass", .ok (.node .nil), .diverges⟩

/-- Submission that completes normally, but only after 100 time-units. -/
def slowSub : Submission :=
  ⟨"time.sleep(100)",
   .ok (.node (.cons (.call (.attr "time.sleep") .nil) .nil)),
   .terminates 100 ""⟩

/-- Tree of `eval(data)`: a deny-listed bare-identifier call. -/
def evilTree : PyNode := .node (.cons (.call (.name "eval") .nil) .nil)

def evilSub : Submission := ⟨"eval(data)", .ok evilTree, .terminates 0 ""⟩

def fullHist : List HistoryEntry := List.replicate 100 ⟨1, "x", "", .success⟩

/-- A state whose history is already at the `MAX_HISTORY` capacity. -/
def st100 : BotState := ⟨fullHist, [], ∅, ∅⟩

/-! ### Claims -/

/-- C5: `analyze` returns UNSAFE carrying the parser's message whenever the
code does not parse; on a parsed tree it is SAFE exactly when no call
expression in the walk matches the deny-list (attribute targets by
substring containment of the rendered text, bare identifiers by exact
membership), and when some call matches it returns UNSAFE naming the
first match in walk order. -/
theorem analyze_matches_spec (e : String) (t : PyNode) :
    analyze (.error e) = (false, "❌ Syntax Error: " ++ e)
  ∧ ((analyze (.ok t)).1 = true ↔ ∀ n ∈ walk [t], ¬ SpecMatch n)
  ∧ (∀ d, (walk [t]).findSome? specName = some d →
      analyze (.ok t) = (false, dangerMsg d)) := by
  refine ⟨rfl, analyzeWalk_safe_iff (walk [t]), fun d hd => ?_⟩
  exact analyzeWalk_first_match (walk [t]) d hd

/-- C5 witness: the theorem applied to a syntax error and to the tree of
`eval(data)`, whose first matching call is the deny-listed `eval`. -/
theorem analyze_matches_spec_witness :
    analyze (.error "invalid syntax") = (false, "❌ Syntax Error: invalid syntax")
  ∧ analyze (.ok evilTree) = (false, dangerMsg "eval") :=
  ⟨(analyze_matches_spec "invalid syntax" evilTree).1,
   (analyze_matches_spec "invalid syntax" evilTree).2.2 "eval" (by decide)⟩

/-- C6 counterexample: the owner identity (user 7, with an empty trusted
set) is trusted in the sense of the `is_trusted` predicate, yet their
deny-listed submission is rejected by the analyzer gate of `run_code` and
never reaches the execution engine — the gate tests only `TRUSTED_USERS`
membership. -/
theorem owner_bypass_fails :
    is_trusted_pred ∅ 7 7 = true
  ∧ (run_code emptyState 7 evilSub 0).2 = some (.rejected (dangerMsg "eval"))
  ∧ reachedEngine (run_code emptyState 7 evilSub 0).2 = false := by decide

/-- C6 (amended): for every submitter in the trusted set (and not blocked),
a submission the analyzer marks UNSAFE still reaches the execution engine;
owner identity alone does not bypass the gate. -/
theorem trusted_set_bypasses_gate (st : BotState) (uid now : Nat) (sub : Submission)
    (h1 : uid ∈ st.trusted) (h2 : uid ∉ st.blocked) :
    reachedEngine (run_code st uid sub now).2 = true := by
  unfold run_code
  rw [if_neg h2]
  have hg : ¬((analyze sub.parsed).1 = false ∧ uid ∉ st.trusted) := by
    rintro ⟨_, hn⟩
    exact hn h1
  rw [if_neg hg]
  cases sub.behavior <;> rfl

/-- C6 witness: user 7 in the trusted set executes `eval(data)`. -/
theorem trusted_set_bypasses_gate_witness :
    reachedEngine (run_code ⟨[], [], {7}, ∅⟩ 7 evilSub 0).2 = true :=
  trusted_set_bypasses_gate ⟨[], [], {7}, ∅⟩ 7 0 evilSub (by decide) (by decide)

/-- C7: a blocked user is denied before any other processing — `run_code`
returns the denial with the state completely unchanged (no ledger,
history, or policy mutation), whatever the submission and regardless of
trust or ownership. -/
theorem blocked_denied_first (st : BotState) (uid now : Nat) (sub : Submission)
    (h : uid ∈ st.blocked) :
    run_code st uid sub now = (st, some .denied) := by
  unfold run_code
  rw [if_pos h]

/-- C7 witness: user 7 is simultaneously blocked, in the trusted set, and
the owner (`is_trusted_pred` with owner id 7), and is still denied with no
state change. -/
theorem blocked_denied_first_witness :
    (7 ∈ (⟨[], [], {7}, {7}⟩ : BotState).blocked)
  ∧ (7 ∈ (⟨[], [], {7}, {7}⟩ : BotState).trusted)
  ∧ is_trusted_pred {7} 7 7 = true
  ∧ run_code ⟨[], [], {7}, {7}⟩ 7 evilSub 0 = (⟨[], [], {7}, {7}⟩, some .denied) :=
  ⟨by decide, by decide, by decide,
   blocked_denied_first ⟨[], [], {7}, {7}⟩ 7 0 evilSub (by decide)⟩

/-- C9: for every state and every user u, `trust` twice equals `trust`
once and `block` twice equals `block` once (unconditionally, whether or
not u is already a member); `untrust` of a non-member of the trusted set
is a no-op, as is `unblock` of a non-member of the blocked set — for any
caller (a non-owner caller mutates nothing either way). -/
theorem policy_idempotence (st : BotState) (ownerId caller u : Nat) :
    trust_user (trust_user st ownerId caller u) ownerId caller u
      = trust_user st ownerId caller u
  ∧ block_user (block_user st ownerId caller u) ownerId caller u
      = block_user st ownerId caller u
  ∧ (u ∉ st.trusted → untrust_user st ownerId caller u = st)
  ∧ (u ∉ st.blocked → unblock_user st ownerId caller u = st) := by
  by_cases hc : caller = ownerId
  · refine ⟨?_, ?_, fun h1 => ?_, fun h2 => ?_⟩
    · simp [trust_user, hc, Finset.insert_idem]
    · simp [block_user, hc, Finset.insert_idem]
    · simp [untrust_user, hc, Finset.erase_eq_self.mpr h1]
    · simp [unblock_user, hc, Finset.erase_eq_self.mpr h2]
  · simp [trust_user, untrust_user, block_user, unblock_user, hc]

/-- C9 witness: the owner (id 0) administering user 5 — trust/block
idempotence on sets where 5 is already a member, and untrust/unblock
no-ops on non-empty sets that do not contain 5. -/
theorem policy_idempotence_witness :
    trust_user (trust_user ⟨[], [], {5, 2}, {5, 3}⟩ 0 0 5) 0 0 5
      = trust_user ⟨[], [], {5, 2}, {5, 3}⟩ 0 0 5
  ∧ block_user (block_user ⟨[], [], {5, 2}, {5, 3}⟩ 0 0 5) 0 0 5
      = block_user ⟨[], [], {5, 2}, {5, 3}⟩ 0 0 5
  ∧ untrust_user ⟨[], [], {2}, {3}⟩ 0 0 5 = ⟨[], [], {2}, {3}⟩
  ∧ unblock_user ⟨[], [], {2}, {3}⟩ 0 0 5 = ⟨[], [], {2}, {3}⟩ :=
  ⟨(policy_idempotence ⟨[], [], {5, 2}, {5, 3}⟩ 0 0 5).1,
   (policy_idempotence ⟨[], [], {5, 2}, {5, 3}⟩ 0 0 5).2.1,
   (policy_idempotence ⟨[], [], {2}, {3}⟩ 0 0 5).2.2.1 (by decide),
   (policy_idempotence ⟨[], [], {2}, {3}⟩ 0 0 5).2.2.2 (by decide)⟩

/-- C10: the `min(limit, 10)` cap in `show_history` only bounds positive
limits from above — a requested limit of 0 slices the whole stored history
(most-recent-first), and a negative limit `-n` yields all but the first
`n` entries, both potentially far more than the documented cap of 10. -/
theorem history_limit_nonpositive (st : BotState) (n : Nat) :
    show_history st 0 = st.execution_history.reverse
  ∧ show_history st (-(n : Int)) = (st.execution_history.drop n).reverse := by
  constructor
  · simp [show_history, pySliceFrom]
  · have hmin : min (-(n : Int)) 10 = -(n : Int) := by
      apply min_eq_left
      omega
    have hge : ¬((n : Int) < 0) := by omega
    simp only [show_history, hmin, neg_neg, pySliceFrom, if_neg hge, Int.toNat_natCast]

/-! ### Ledger lemmas: records survive updates -/

theorem find?_append_none {α : Type} (p : α → Bool) :
    ∀ (l₁ l₂ : List α), l₁.find? p = none → (l₁ ++ l₂).find? p = l₂.find? p
  | [], _, _ => rfl
  | a :: t, l₂, h => by
      have hpa : ¬ p a = true := by
        intro hp
        rw [List.find?_cons_of_pos _ hp] at h
        cases h
      rw [List.find?_cons_of_neg _ hpa] at h
      rw [List.cons_append, List.find?_cons_of_neg _ hpa]
      exact find?_append_none p t l₂ h

theorem find?_append_isSome {α : Type} (p : α → Bool) :
    ∀ (l₁ l₂ : List α), (l₁.find? p).isSome = true → (l₁ ++ l₂).find? p = l₁.find? p
  | [], _, h => by simp [List.find?] at h
  | a :: t, l₂, h => by
      by_cases hpa : p a = true
      · rw [List.cons_append, List.find?_cons_of_pos _ hpa, List.find?_cons_of_pos _ hpa]
      · rw [List.find?_cons_of_neg _ hpa] at h
        rw [List.cons_append, List.find?_cons_of_neg _ hpa, List.find?_cons_of_neg _ hpa]
        exact find?_append_isSome p t l₂ h

theorem lookupStats_append_self (m : List (Nat × UserStats)) (u : Nat) (s : UserStats)
    (h : lookupStats m u = none) :
    lookupStats (m ++ [(u, s)]) u = some s := by
  cases hf : m.find? (fun p => p.1 == u) with
  | some p =>
      unfold lookupStats at h
      rw [hf] at h
      cases h
  | none =>
      unfold lookupStats
      rw [find?_append_none _ m _ hf]
      simp [List.find?]

theorem lookupStats_append_of_isSome (m l : List (Nat × UserStats)) (u : Nat)
    (h : (lookupStats m u).isSome = true) :
    lookupStats (m ++ l) u = lookupStats m u := by
  have hf : (m.find? (fun p => p.1 == u)).isSome = true := by
    unfold lookupStats at h
    cases hf : m.find? (fun p => p.1 == u) with
    | some p => rfl
    | none => rw [hf] at h; cases h
  unfold lookupStats
  rw [find?_append_isSome _ m l hf]

theorem lookupStats_setStats_isSome (m : List (Nat × UserStats)) (v u : Nat) (s : UserStats) :
    (lookupStats (setStats m v s) u).isSome = (lookupStats m u).isSome := by
  induction m with
  | nil => rfl
  | cons p t ih =>
      have hk : ((if p.1 = v then (v, s) else p).1 == u) = (p.1 == u) := by
        by_cases hv : p.1 = v
        · rw [if_pos hv, hv]
        · rw [if_neg hv]
      unfold setStats
      simp only [List.map_cons]
      by_cases hp : (p.1 == u) = true
      · unfold lookupStats
        rw [List.find?_cons_of_pos _ (by rw [hk]; exact hp)]
        rw [@List.find?_cons_of_pos _ (fun q => q.1 == u) p t hp]
        rfl
      · unfold lookupStats
        rw [List.find?_cons_of_neg _ (by rw [hk]; exact hp)]
        rw [@List.find?_cons_of_neg _ (fun q => q.1 == u) p t hp]
        exact ih

theorem get_user_stats_self (m : List (Nat × UserStats)) (u now : Nat) :
    lookupStats (get_user_stats m u now).2 u = some (get_user_stats m u now).1 := by
  unfold get_user_stats
  cases hf : m.find? (fun p => p.1 == u) with
  | some p => simp [lookupStats, hf]
  | none =>
      simp only
      exact lookupStats_append_self m u _ (by simp [lookupStats, hf])

theorem get_user_stats_other (m : List (Nat × UserStats)) (v now u : Nat)
    (h : (lookupStats m u).isSome = true) :
    lookupStats (get_user_stats m v now).2 u = lookupStats m u := by
  unfold get_user_stats
  cases hf : m.find? (fun p => p.1 == v) with
  | some p => simp
  | none =>
      simp only
      exact lookupStats_append_of_isSome m _ u h

theorem recordSuccess_preserves (m : List (Nat × UserStats)) (v : Nat) (t : ℚ) (now u : Nat)
    (h : (lookupStats m u).isSome = true) :
    (lookupStats (recordSuccess m v t now) u).isSome = true := by
  unfold recordSuccess
  rw [lookupStats_setStats_isSome, get_user_stats_other m v now u h]
  exact h

theorem recordError_preserves (m : List (Nat × UserStats)) (v now u : Nat)
    (h : (lookupStats m u).isSome = true) :
    (lookupStats (recordError m v now) u).isSome = true := by
  unfold recordError
  rw [lookupStats_setStats_isSome, get_user_stats_other m v now u h]
  exact h

theorem run_code_preserves_stats (st : BotState) (uid : Nat) (sub : Submission) (now u : Nat)
    (h : (lookupStats st.user_stats u).isSome = true) :
    (lookupStats ((run_code st uid sub now).1.user_stats) u).isSome = true := by
  unfold run_code
  by_cases hb : uid ∈ st.blocked
  · rw [if_pos hb]; exact h
  · rw [if_neg hb]
    by_cases hg : (analyze sub.parsed).1 = false ∧ uid ∉ st.trusted
    · rw [if_pos hg]; exact h
    · rw [if_neg hg]
      cases sub.behavior with
      | terminates t out => exact recordSuccess_preserves st.user_stats uid t now u h
      | raisesTimeout t => exact h
      | raises t err => exact recordError_preserves st.user_stats uid now u h
      | diverges => exact h

/-- C8 counterexample: user 5 has never submitted anything (the state is
empty), yet a `stats` query for user 5 creates a zero-initialised
UserStats record — `show_stats` calls `get_user_stats`, which inserts on
lookup miss, so creation is not restricted to first submissions. -/
theorem stats_query_creates_record :
    lookupStats emptyState.user_stats 5 = none
  ∧ emptyState.execution_history = []
  ∧ lookupStats ((show_stats emptyState 5 0).1.user_stats) 5 = some ⟨0, 0, 0, 0⟩ := by
  decide

/-- C8 (amended): a UserStats record for u is created by the first
`get_user_stats` call for u, which happens both on u's first accounted
submission and on any `stats` query targeting u (a query for a never-seen
target inserts a zeroed record with `first_use = now`); an existing record
survives every further `run_code` or `show_stats` call — records are
never deleted. -/
theorem stats_lazy_creation (st : BotState) (uid target u now now2 : Nat) (sub : Submission)
    (h : (lookupStats st.user_stats u).isSome = true) :
    (lookupStats ((show_stats st target now).1.user_stats) target).isSome = true
  ∧ (lookupStats st.user_stats target = none →
      lookupStats ((show_stats st target now).1.user_stats) target = some ⟨0, 0, 0, now⟩)
  ∧ (lookupStats ((run_code st uid sub now2).1.user_stats) u).isSome = true
  ∧ (lookupStats ((show_stats st target now).1.user_stats) u).isSome = true := by
  refine ⟨?_, ?_, ?_, ?_⟩
  · show (lookupStats (get_user_stats st.user_stats target now).2 target).isSome = true
    rw [get_user_stats_self]
    rfl
  · intro h0
    show lookupStats (get_user_stats st.user_stats target now).2 target = some ⟨0, 0, 0, now⟩
    have hf : st.user_stats.find? (fun p => p.1 == target) = none := by
      unfold lookupStats at h0
      cases hf : st.user_stats.find? (fun p => p.1 == target) with
      | some p => rw [hf] at h0; cases h0
      | none => rfl
    unfold get_user_stats
    rw [hf]
    exact lookupStats_append_self st.user_stats target _ h0
  · exact run_code_preserves_stats st uid sub now2 u h
  · show (lookupStats (get_user_stats st.user_stats target now).2 u).isSome = true
    rw [get_user_stats_other st.user_stats target now u h]
    exact h

/-- C8 witness: a state already holding a record for user 1; a `stats`
query for never-seen user 5 creates the zeroed record with
`first_use = 9`, and user 1's record survives both the query and a run by
user 3. -/
theorem stats_lazy_creation_witness :
    (lookupStats ((show_stats ⟨[], [(1, ⟨2, 1, 1, 0⟩)], ∅, ∅⟩ 5 9).1.user_stats) 5).isSome
      = true
  ∧ lookupStats ((show_stats ⟨[], [(1, ⟨2, 1, 1, 0⟩)], ∅, ∅⟩ 5 9).1.user_stats) 5
      = some ⟨0, 0, 0, 9⟩
  ∧ (lookupStats ((run_code ⟨[], [(1, ⟨2, 1, 1, 0⟩)], ∅, ∅⟩ 3 okSub 0).1.user_stats) 1).isSome
      = true :=
  have h := stats_lazy_creation ⟨[], [(1, ⟨2, 1, 1, 0⟩)], ∅, ∅⟩ 3 5 1 9 0 okSub (by decide)
  ⟨h.1, h.2.1 (by decide), h.2.2.1⟩

/-- C1 (code bug): `run_code` installs no deadline — line 245 awaits the
compiled body directly, with no `asyncio.wait_for(..., EXECUTION_TIMEOUT)`
— so a never-completing submission produces no outcome at all (the caller
waits forever, here the `none` result), and a submission that completes
only after 100 time-units (beyond the 30-unit deadline the claim
describes) is reported as a plain success rather than a Timeout. -/
theorem run_code_no_deadline :
    run_code emptyState 3 loopSub 0 = (emptyState, none)
  ∧ (run_code emptyState 3 slowSub 0).2 = some (.success "" 100)
  ∧ (EXECUTION_TIMEOUT : ℚ) < 100 := by
  refine ⟨by decide, ?_, by norm_num [EXECUTION_TIMEOUT]⟩
  decide

/-- C2 (code bug): after one success with elapsed 0.1 and one runtime
failure with elapsed 0.2 for user 3, the ledger reads executions = 1,
errors = 1, total_time = 0.1 — the exception branch of `run_code`
increments only the error counter and never `executions` or `total_time`
— whereas the claim requires executions = 2 and total_time ≈ 0.3. -/
theorem failure_ledger_divergence :
    lookupStats ((run_code (run_code emptyState 3 okSub 0).1 3 boomSub 0).1.user_stats) 3
      = some ⟨1, 1, 1/10, 0⟩ := by
  simp +decide [run_code, emptyState, okSub, boomSub, analyze, analyzeWalk, walk, walkFuel,
    qsz, PyNode.sz, PyForest.sz, checkNode, lookupStats, recordSuccess, recordError,
    get_user_stats, setStats, PyNode.kids, PyForest.toList, MAX_HISTORY, DANGEROUS_KEYWORDS]

/-- C3 (code bug): a single failing submission from a fresh user leaves
that user's record at executions = 0, errors = 1, so the claimed invariant
executions ≥ errors is violated (the success-rate formula in `show_stats`
presumes the invariant and would render a negative rate here). -/
theorem stats_invariant_violated :
    lookupStats ((run_code emptyState 3 boomSub 0).1.user_stats) 3 = some ⟨0, 1, 0, 0⟩
  ∧ ((lookupStats ((run_code emptyState 3 boomSub 0).1.user_stats) 3).getD
        ⟨0, 0, 0, 0⟩).executions
      < ((lookupStats ((run_code emptyState 3 boomSub 0).1.user_stats) 3).getD
        ⟨0, 0, 0, 0⟩).errors := by
  constructor
  · simp +decide [run_code, emptyState, boomSub, analyze, analyzeWalk, walk, walkFuel,
      qsz, PyNode.sz, PyForest.sz, checkNode, lookupStats, recordError,
      get_user_stats, setStats, MAX_HISTORY, DANGEROUS_KEYWORDS]
  · simp +decide [run_code, emptyState, boomSub, analyze, analyzeWalk, walk, walkFuel,
      qsz, PyNode.sz, PyForest.sz, checkNode, lookupStats, recordError,
      get_user_stats, setStats, MAX_HISTORY, DANGEROUS_KEYWORDS]

/-- C4 (code bug): starting from a history already at the
`MAX_HISTORY` = 100 capacity, a successful run appends and evicts the
oldest entry (length stays 100), but the exception branch appends without
the eviction check, leaving 101 entries — the ≤ 100 bound does not hold
after every operation. -/
theorem history_bound_violated :
    st100.execution_history.length = MAX_HISTORY
  ∧ (run_code st100 3 okSub 0).1.execution_history.length = 100
  ∧ (run_code st100 3 boomSub 0).1.execution_history.length = 101 := by
  refine ⟨by decide, by decide, by decide⟩

end Codeastra
